import Mathlib

/-!
Verification of the pool quantity calculator in
`src/streamlit_app_Version2.py`.

The calculator part of the script (lines 14 to 50) maps eight scalar
inputs to derived quantities.  We embed it over exact rationals: the
eight inputs become the fields of `PoolSpec`, the validation block
(lines 24 to 29) becomes `clampSpec` together with the advisory
messages collected by `calculator`, and the arithmetic block
(lines 33 to 50) becomes `computeReport`.
-/

namespace Pool

/-- The eight user-supplied scalars, lines 14 to 21 of the script. -/
structure PoolSpec where
  length : ℚ
  width : ℚ
  depth_kids : ℚ
  depth_adults : ℚ
  kids_zone_length : ℚ
  wall_thickness : ℚ
  floor_thickness : ℚ
  soil_thickness : ℚ

/-- All derived quantities computed on lines 33 to 50, together with the
effective (post-clamp) kids zone length, which the script displays and
exports alongside them. -/
structure QuantityReport where
  kids_zone_length : ℚ
  adults_zone_length : ℚ
  outer_length : ℚ
  outer_width : ℚ
  outer_depth : ℚ
  water_volume_m3 : ℚ
  water_volume_l : ℚ
  excavation_volume_m3 : ℚ
  floor_concrete_m3 : ℚ
  inner_perimeter : ℚ
  wall_concrete_m3 : ℚ
  concrete_total_m3 : ℚ

/-- Advisory message of line 25 of the script. -/
def depthWarningMsg : String :=
  "Kids depth is greater than adults depth. Please check depths."

/-- Advisory message of line 28 of the script. -/
def kidsZoneWarningMsg : String :=
  "Kids zone length cannot exceed total length. It will be clamped to the pool length."

/-- Lines 27 to 29: if the kids zone length exceeds the pool length it is
clamped to the pool length; otherwise the inputs pass through unchanged. -/
def clampSpec (s : PoolSpec) : PoolSpec :=
  if s.length < s.kids_zone_length then
    { s with kids_zone_length := s.length }
  else
    s

/-- Lines 33 to 50: the arithmetic of the calculator, applied to the
already validated (clamped) inputs. -/
def computeReport (s : PoolSpec) : QuantityReport :=
  let outer_length := s.length + 2 * s.wall_thickness
  let outer_width := s.width + 2 * s.wall_thickness
  let outer_depth := s.depth_adults + s.floor_thickness + s.soil_thickness
  let adults_zone_length := max 0 (s.length - s.kids_zone_length)
  let water_volume_m3 :=
    s.kids_zone_length * s.width * s.depth_kids +
      adults_zone_length * s.width * s.depth_adults
  let water_volume_l := water_volume_m3 * 1000
  let excavation_volume_m3 := outer_length * outer_width * outer_depth
  let floor_concrete_m3 := outer_length * outer_width * s.floor_thickness
  let inner_perimeter := 2 * (s.length + s.width)
  let wall_concrete_m3 :=
    inner_perimeter * s.wall_thickness * (s.depth_adults + s.floor_thickness)
  let concrete_total_m3 := floor_concrete_m3 + wall_concrete_m3
  { kids_zone_length := s.kids_zone_length
    adults_zone_length := adults_zone_length
    outer_length := outer_length
    outer_width := outer_width
    outer_depth := outer_depth
    water_volume_m3 := water_volume_m3
    water_volume_l := water_volume_l
    excavation_volume_m3 := excavation_volume_m3
    floor_concrete_m3 := floor_concrete_m3
    inner_perimeter := inner_perimeter
    wall_concrete_m3 := wall_concrete_m3
    concrete_total_m3 := concrete_total_m3 }

/-- The whole calculator, lines 24 to 50: collect the advisory messages of
the validation block, clamp, then compute.  The computation is a total
function: there is no error branch and no rejection of inputs. -/
def calculator (s : PoolSpec) : List String × QuantityReport :=
  let warnsDepth : List String :=
    if s.depth_adults < s.depth_kids then [depthWarningMsg] else []
  let warnsKids : List String :=
    if s.length < s.kids_zone_length then [kidsZoneWarningMsg] else []
  (warnsDepth ++ warnsKids, computeReport (clampSpec s))

/-- The calculator as it would be with the depth plausibility check of
lines 24 to 25 removed; used to show that the check alters nothing. -/
def calculatorNoDepthCheck (s : PoolSpec) : List String × QuantityReport :=
  let warnsKids : List String :=
    if s.length < s.kids_zone_length then [kidsZoneWarningMsg] else []
  (warnsKids, computeReport (clampSpec s))

/-- Adults zone length as the plain difference, the simplification whose
equivalence with the guarded `max 0 (length - kids_zone_length)` of
line 39 is claimed once inputs are clamped. -/
def adultsZoneSimple (s : PoolSpec) : ℚ :=
  s.length - s.kids_zone_length

/-- The example inputs of the spec: length 7.25, width 4.25, kids depth
1.00, adults depth 1.50, kids zone 2.175, wall 0.25, floor 0.30,
soil 0.50. -/
def sampleSpec : PoolSpec :=
  ⟨29/4, 17/4, 1, 3/2, 87/40, 1/4, 3/10, 1/2⟩

/-- The clamping example of the spec: kids zone length 10 on a pool of
length 7.25. -/
def overSpec : PoolSpec :=
  ⟨29/4, 17/4, 1, 3/2, 10, 1/4, 3/10, 1/2⟩

/-- Sample inputs with kids depth 2.00 above adults depth 1.50. -/
def deepKidsSpec : PoolSpec :=
  ⟨29/4, 17/4, 2, 3/2, 87/40, 1/4, 3/10, 1/2⟩

/-- The sample inputs with all three thicknesses set to zero. -/
def sampleSpecZeroThickness : PoolSpec :=
  ⟨29/4, 17/4, 1, 3/2, 87/40, 0, 0, 0⟩

/-- An all-negative input, accepted without rejection by the calculator. -/
def negSpec : PoolSpec :=
  ⟨-1, -1, -1, -1, -1, -1, -1, -1⟩

/-- C1: for positive length and width, non-negative depths, and a kids
zone length within bounds, the computed water volume is
kids_zone_length * width * depth_kids +
(length - kids_zone_length) * width * depth_adults, and it is
non-negative. -/
theorem water_volume_correct (s : PoolSpec)
    (hl : 0 < s.length) (hw : 0 < s.width)
    (hda : 0 ≤ s.depth_adults) (hdk : 0 ≤ s.depth_kids)
    (hk0 : 0 ≤ s.kids_zone_length) (hkl : s.kids_zone_length ≤ s.length) :
    (calculator s).2.water_volume_m3 =
      s.kids_zone_length * s.width * s.depth_kids +
        (s.length - s.kids_zone_length) * s.width * s.depth_adults ∧
    0 ≤ (calculator s).2.water_volume_m3 := by
  have hcl : clampSpec s = s := by
    simp [clampSpec, not_lt.mpr hkl]
  have hmax : max 0 (s.length - s.kids_zone_length) = s.length - s.kids_zone_length :=
    max_eq_right (by linarith)
  have hform : (calculator s).2.water_volume_m3 =
      s.kids_zone_length * s.width * s.depth_kids +
        (s.length - s.kids_zone_length) * s.width * s.depth_adults := by
    simp [calculator, computeReport, hcl, hmax]
  refine ⟨hform, ?_⟩
  rw [hform]
  have h1 : 0 ≤ s.kids_zone_length * s.width * s.depth_kids :=
    mul_nonneg (mul_nonneg hk0 hw.le) hdk
  have h2 : 0 ≤ (s.length - s.kids_zone_length) * s.width * s.depth_adults :=
    mul_nonneg (mul_nonneg (by linarith) hw.le) hda
  linarith

/-- Witness for C1 at the sample inputs of the spec. -/
theorem water_volume_correct_witness :
    (calculator sampleSpec).2.water_volume_m3 =
      sampleSpec.kids_zone_length * sampleSpec.width * sampleSpec.depth_kids +
        (sampleSpec.length - sampleSpec.kids_zone_length) * sampleSpec.width *
          sampleSpec.depth_adults ∧
    0 ≤ (calculator sampleSpec).2.water_volume_m3 :=
  water_volume_correct sampleSpec (by norm_num [sampleSpec]) (by norm_num [sampleSpec])
    (by norm_num [sampleSpec]) (by norm_num [sampleSpec]) (by norm_num [sampleSpec])
    (by norm_num [sampleSpec])

/-- C2: when the supplied kids zone length exceeds the pool length, the
effective kids zone length equals the pool length, clamping is
idempotent, the advisory message is emitted, and the report is still
computed (on the clamped inputs), so the advisory is non-fatal. -/
theorem clamp_effective (s : PoolSpec) (h : s.length < s.kids_zone_length) :
    (clampSpec s).kids_zone_length = s.length ∧
    clampSpec (clampSpec s) = clampSpec s ∧
    kidsZoneWarningMsg ∈ (calculator s).1 ∧
    (calculator s).2 = computeReport { s with kids_zone_length := s.length } := by
  have hc : clampSpec s = { s with kids_zone_length := s.length } := by
    simp [clampSpec, h]
  refine ⟨by rw [hc], ?_, ?_, by simp [calculator, hc]⟩
  · rw [hc]
    simp [clampSpec]
  · simp [calculator, h]

/-- Witness for C2 at the clamping example of the spec (kids zone 10 on a
pool of length 7.25). -/
theorem clamp_effective_witness :
    (clampSpec overSpec).kids_zone_length = overSpec.length ∧
    clampSpec (clampSpec overSpec) = clampSpec overSpec ∧
    kidsZoneWarningMsg ∈ (calculator overSpec).1 ∧
    (calculator overSpec).2 =
      computeReport { overSpec with kids_zone_length := overSpec.length } :=
  clamp_effective overSpec (by norm_num [overSpec])

/-- C3: for every input, the excavation volume equals
(length + 2 wall) * (width + 2 wall) *
(depth_adults + floor_thickness + soil_thickness). -/
theorem excavation_formula (s : PoolSpec) :
    (calculator s).2.excavation_volume_m3 =
      (s.length + 2 * s.wall_thickness) * (s.width + 2 * s.wall_thickness) *
        (s.depth_adults + s.floor_thickness + s.soil_thickness) := by
  by_cases h : s.length < s.kids_zone_length <;>
    simp [calculator, computeReport, clampSpec, h]

/-- C4: in every report the effective kids zone length is at most the
pool length, and the adults zone length is non-negative. -/
theorem report_invariants (s : PoolSpec) :
    (calculator s).2.kids_zone_length ≤ s.length ∧
    0 ≤ (calculator s).2.adults_zone_length := by
  by_cases h : s.length < s.kids_zone_length
  · refine ⟨?_, ?_⟩ <;> simp [calculator, computeReport, clampSpec, h]
  · refine ⟨?_, ?_⟩ <;> simp [calculator, computeReport, clampSpec, h]
    exact le_of_not_lt h

/-- C5: with all fixed inputs non-negative, the total concrete volume is
monotonically non-decreasing in the wall thickness and in the floor
thickness. -/
theorem concrete_total_monotone (s : PoolSpec) (t1 t2 : ℚ)
    (hl : 0 ≤ s.length) (hw : 0 ≤ s.width) (hda : 0 ≤ s.depth_adults)
    (hwt : 0 ≤ s.wall_thickness) (hft : 0 ≤ s.floor_thickness)
    (h1 : 0 ≤ t1) (h12 : t1 ≤ t2) :
    (calculator { s with wall_thickness := t1 }).2.concrete_total_m3 ≤
      (calculator { s with wall_thickness := t2 }).2.concrete_total_m3 ∧
    (calculator { s with floor_thickness := t1 }).2.concrete_total_m3 ≤
      (calculator { s with floor_thickness := t2 }).2.concrete_total_m3 := by
  have h2 : 0 ≤ t2 := le_trans h1 h12
  constructor
  · by_cases h : s.length < s.kids_zone_length <;>
      simp [calculator, computeReport, clampSpec, h] <;>
      nlinarith [mul_nonneg hl hw, mul_nonneg hl hft, mul_nonneg hw hft,
        mul_nonneg hda (sub_nonneg.mpr h12), mul_nonneg hft (sub_nonneg.mpr h12),
        mul_nonneg (mul_nonneg hl hft) (sub_nonneg.mpr h12),
        mul_nonneg (mul_nonneg hw hft) (sub_nonneg.mpr h12),
        mul_nonneg (mul_nonneg hft (sub_nonneg.mpr h12)) (add_nonneg h1 h2),
        mul_nonneg (mul_nonneg hda (sub_nonneg.mpr h12)) (add_nonneg hl hw),
        mul_nonneg (mul_nonneg hft (sub_nonneg.mpr h12)) (add_nonneg hl hw)]
  · by_cases h : s.length < s.kids_zone_length <;>
      simp [calculator, computeReport, clampSpec, h] <;>
      nlinarith [mul_nonneg hl hw, mul_nonneg hl hwt, mul_nonneg hw hwt,
        mul_nonneg hwt hwt, mul_nonneg (mul_nonneg hl hw) (sub_nonneg.mpr h12),
        mul_nonneg (mul_nonneg hl hwt) (sub_nonneg.mpr h12),
        mul_nonneg (mul_nonneg hw hwt) (sub_nonneg.mpr h12),
        mul_nonneg (mul_nonneg hwt hwt) (sub_nonneg.mpr h12)]

/-- Witness for C5 at the sample inputs with thicknesses 0 and 1. -/
theorem concrete_total_monotone_witness :
    (calculator { sampleSpec with wall_thickness := 0 }).2.concrete_total_m3 ≤
      (calculator { sampleSpec with wall_thickness := 1 }).2.concrete_total_m3 ∧
    (calculator { sampleSpec with floor_thickness := 0 }).2.concrete_total_m3 ≤
      (calculator { sampleSpec with floor_thickness := 1 }).2.concrete_total_m3 :=
  concrete_total_monotone sampleSpec 0 1 (by norm_num [sampleSpec])
    (by norm_num [sampleSpec]) (by norm_num [sampleSpec]) (by norm_num [sampleSpec])
    (by norm_num [sampleSpec]) (by norm_num) (by norm_num)

/-- C6: for every input the water volume in litres is exactly 1000 times
the water volume in cubic metres. -/
theorem water_liters_exact (s : PoolSpec) :
    (calculator s).2.water_volume_l = 1000 * (calculator s).2.water_volume_m3 := by
  simp [calculator, computeReport]
  ring

/-- C7: when the kids depth exceeds the adults depth, the calculator only
emits the advisory message; the resulting report is identical to the one
computed with the depth check removed. -/
theorem depth_warning_only (s : PoolSpec) (h : s.depth_adults < s.depth_kids) :
    depthWarningMsg ∈ (calculator s).1 ∧
    (calculator s).2 = (calculatorNoDepthCheck s).2 := by
  constructor
  · simp [calculator, h]
  · simp [calculator, calculatorNoDepthCheck]

/-- Witness for C7 at inputs with kids depth 2.00 above adults depth 1.50. -/
theorem depth_warning_only_witness :
    depthWarningMsg ∈ (calculator deepKidsSpec).1 ∧
    (calculator deepKidsSpec).2 = (calculatorNoDepthCheck deepKidsSpec).2 :=
  depth_warning_only deepKidsSpec (by norm_num [deepKidsSpec])

/-- C8: after the clamp the guard in the adults zone length never binds:
the pipeline computes the same adults zone length as the plain difference
length minus kids zone length evaluated on the clamped inputs. -/
theorem adults_zone_guard_never_binds (s : PoolSpec) :
    (calculator s).2.adults_zone_length = adultsZoneSimple (clampSpec s) := by
  by_cases h : s.length < s.kids_zone_length
  · simp [calculator, computeReport, clampSpec, adultsZoneSimple, h]
  · simp [calculator, computeReport, clampSpec, adultsZoneSimple, h]
    exact le_of_not_lt h

/-- C9: the water volumes depend only on length, width, the two depths
and the kids zone length: two inputs agreeing on those five fields yield
the same water volumes whatever their thicknesses. -/
theorem water_independent_of_thicknesses (s1 s2 : PoolSpec)
    (hl : s1.length = s2.length) (hw : s1.width = s2.width)
    (hdk : s1.depth_kids = s2.depth_kids) (hda : s1.depth_adults = s2.depth_adults)
    (hk : s1.kids_zone_length = s2.kids_zone_length) :
    (calculator s1).2.water_volume_m3 = (calculator s2).2.water_volume_m3 ∧
    (calculator s1).2.water_volume_l = (calculator s2).2.water_volume_l := by
  have hcond : (s1.length < s1.kids_zone_length) ↔ (s2.length < s2.kids_zone_length) := by
    rw [hl, hk]
  by_cases h : s2.length < s2.kids_zone_length
  · have h1 := hcond.mpr h
    constructor <;>
      simp [calculator, computeReport, clampSpec, h, h1, hl, hw, hdk, hda, hk]
  · have h1 : ¬s1.length < s1.kids_zone_length := fun hh => h (hcond.mp hh)
    constructor <;>
      simp [calculator, computeReport, clampSpec, h, h1, hl, hw, hdk, hda, hk]

/-- Witness for C9: the sample inputs and the same inputs with all three
thicknesses zeroed give the same water volumes. -/
theorem water_independent_of_thicknesses_witness :
    (calculator sampleSpec).2.water_volume_m3 =
      (calculator sampleSpecZeroThickness).2.water_volume_m3 ∧
    (calculator sampleSpec).2.water_volume_l =
      (calculator sampleSpecZeroThickness).2.water_volume_l :=
  water_independent_of_thicknesses sampleSpec sampleSpecZeroThickness
    rfl rfl rfl rfl rfl

/-- C10: the calculator rejects nothing: for every input, including
negative ones, the arithmetic is applied unconditionally (the water
volume always equals the closed-form expression over the clamped
fields), and an all-negative input silently yields negative water and
excavation volumes instead of any failure. -/
theorem calculator_total_no_rejection :
    (∀ s : PoolSpec, (calculator s).2.water_volume_m3 =
        (clampSpec s).kids_zone_length * (clampSpec s).width * (clampSpec s).depth_kids +
          max 0 ((clampSpec s).length - (clampSpec s).kids_zone_length) *
            (clampSpec s).width * (clampSpec s).depth_adults) ∧
    (calculator negSpec).2.water_volume_m3 < 0 ∧
    (calculator negSpec).2.excavation_volume_m3 < 0 := by
  refine ⟨fun s => by simp [calculator, computeReport], ?_, ?_⟩
  · norm_num [calculator, computeReport, clampSpec, negSpec]
  · norm_num [calculator, computeReport, clampSpec, negSpec]

end Pool
